import Mathlib

/-!
Verification development for the ClearCare agent pipeline
(backend/agent/graph.py, backend/agent/tools.py, backend/agent/critique.py).

The deterministic parts of the pipeline are embedded as Lean functions.
External calls (the reasoning oracle, the provider directory, the web
search service) are modelled by explicit outcome parameters: a node that
consumes the text of an external call is a function of that text, and the
critique loop is a function of the per-iteration oracle outcomes.
Python floats are modelled as rationals, Python ints as integers.
-/

/-! ### String helpers (Python str.strip / str.lower / substring test) -/

/-- Model of Python str.strip with no arguments: remove leading and
trailing whitespace. -/
def pyStrip (s : String) : String :=
  String.mk (((s.toList.dropWhile Char.isWhitespace).reverse.dropWhile
    Char.isWhitespace).reverse)

/-- Model of Python str.lower for the ASCII texts appearing here. -/
def pyLower (s : String) : String :=
  String.mk (s.toList.map Char.toLower)

/-- The pattern list starts the character list (model of str.startswith at
one position). -/
def charsStart : List Char → List Char → Bool
  | [], _ => true
  | _ :: _, [] => false
  | p :: ps, c :: cs => p == c && charsStart ps cs

/-- The pattern list occurs somewhere in the character list. -/
def charsHas : List Char → List Char → Bool
  | pat, [] => pat.isEmpty
  | pat, c :: cs => charsStart pat (c :: cs) || charsHas pat cs

/-- Model of the Python substring test: pat in s. -/
def strContains (s pat : String) : Bool :=
  charsHas pat.toList s.toList

/-! ### Python values and dictionaries

graph.py threads plain dictionaries through the pipeline; the claims about
node_find_hospitals / node_check_network / run_agent are about dictionary
key lookups, so dictionaries are modelled as association lists. -/

/-- A Python value as it appears in the pipeline state dictionaries. -/
inductive PyVal where
  | s (v : String)
  | n (v : ℚ)
  | b (v : Bool)
  | list (v : List PyVal)

/-- A Python dictionary with string keys. -/
abbrev PyDict := List (String × PyVal)

/-- Model of d.get(k, dflt). -/
def dget (d : PyDict) (k : String) (dflt : PyVal) : PyVal :=
  match d.find? (fun kv => kv.1 == k) with
  | some kv => kv.2
  | none => dflt

/-- Python truthiness of a value. -/
def pyTruthy : PyVal → Bool
  | .s v => !(v == "")
  | .n v => !(v == 0)
  | .b v => v
  | .list v => !(v.isEmpty)

/-- View a value as a string (the dictionaries handled here store strings
under the keys this is applied to). -/
def pyValStr : PyVal → String
  | .s v => v
  | _ => ""

/-! ### parse_dollar (graph.py lines 80-90)

parse_dollar splits the text into lines, finds a line containing the label
case-insensitively, and applies the regex search for an optional currency
symbol followed by a nonempty run of digits or commas and an optional
fraction part; the matched group has its commas removed and is passed to
float(). A ValueError inside the loop (the group can consist of commas
only) is caught by the surrounding try/except, and the function then
returns 0.0. -/

/-- A character the regex class for digits-or-comma accepts. -/
def digitComma (c : Char) : Bool := c.isDigit || c == ','

/-- The regex group matched at the current position, which must start with
a digit or comma: the maximal digit-or-comma run, then an optional dot
followed by the maximal digit run. -/
def numGroupAt (cs : List Char) : Option (List Char) :=
  match cs with
  | c :: _ =>
    if digitComma c then
      let run := cs.takeWhile digitComma
      let rest := cs.dropWhile digitComma
      match rest with
      | '.' :: rest2 => some (run ++ '.' :: rest2.takeWhile Char.isDigit)
      | _ => some run
    else none
  | [] => none

/-- Leftmost match of the dollar-amount regex in a line: at each position
the optional dollar sign is consumed if a digit-or-comma run follows. -/
def searchNum : List Char → Option (List Char)
  | [] => none
  | c :: cs =>
    if digitComma c then numGroupAt (c :: cs)
    else if c == '$' then
      match numGroupAt cs with
      | some g => some g
      | none => searchNum cs
    else searchNum cs

/-- Decimal digits to a natural number. -/
def digitsToNat (ds : List Char) : ℕ :=
  ds.foldl (fun a c => a * 10 + (c.toNat - 48)) 0

/-- Model of Python float() on the comma-stripped group: defined exactly on
strings containing at least one digit (float raises ValueError on an empty
string or a bare dot, which the caller turns into 0.0). -/
def parseFloat? (cs : List Char) : Option ℚ :=
  if cs.any Char.isDigit then
    some (Rat.divInt
      (digitsToNat (cs.takeWhile (fun c => !(c == '.'))) *
          10 ^ ((cs.dropWhile (fun c => !(c == '.'))).drop 1).length +
        digitsToNat ((cs.dropWhile (fun c => !(c == '.'))).drop 1))
      (10 ^ ((cs.dropWhile (fun c => !(c == '.'))).drop 1).length))
  else none

/-- Model of Python text.split on a single newline character. -/
def splitLinesChars : List Char → List (List Char)
  | [] => [[]]
  | c :: cs =>
    if c == '\n' then [] :: splitLinesChars cs
    else
      match splitLinesChars cs with
      | l :: ls => (c :: l) :: ls
      | [] => [[c]]

/-- The per-line loop of parse_dollar. A ValueError raised by float()
aborts the whole loop (the try block wraps the loop), yielding 0.0. -/
def parse_dollar_lines (label : List Char) : List (List Char) → ℚ
  | [] => 0
  | line :: rest =>
    if charsHas (label.map Char.toLower) (line.map Char.toLower) then
      match searchNum line with
      | some g =>
        match parseFloat? (g.filter (fun c => !(c == ','))) with
        | some v => v
        | none => 0
      | none => parse_dollar_lines label rest
    else parse_dollar_lines label rest

/-- Model of parse_dollar (the spec name is extractAmount). -/
def parse_dollar (text label : String) : ℚ :=
  parse_dollar_lines label.toList (splitLinesChars text.toList)

/-! ### node_check_inputs (graph.py lines 164-180) -/

/-- The fixed negation-token set of node_check_inputs. -/
def no_insurance_signals : List String :=
  ["none", "no", "skip", "n/a", "na", "unknown", ""]

/-- Model of node_check_inputs: the has_insurance flag. -/
def node_check_inputs (insurance_input : String) : Bool :=
  let raw := pyStrip insurance_input
  decide (raw.length > 5) && !(no_insurance_signals.contains (pyLower raw))

/-! ### node_find_hospitals (graph.py lines 244-319)

On a successful directory lookup the node turns each returned organization
record into a dictionary whose keys are hospital, address, phone, npi,
network_status and estimated_cost. The external lookup itself is modelled
by the list of returned records. -/

/-- One record of the NPI registry response, restricted to the fields the
node reads. -/
structure NpiResult where
  organization_name : String
  address_1 : String
  city : String
  state : String
  postal_code : String
  telephone_number : String
  number : String

/-- The dictionary node_find_hospitals builds for one directory record
(none when the stripped organization name is empty, matching the continue
statement). -/
def npi_hospital_entry (p : NpiResult) : Option PyDict :=
  let name := pyStrip p.organization_name
  if name == "" then none
  else some
    [("hospital", .s name),
     ("address", .s (p.address_1 ++ ", " ++ p.city ++ ", " ++ p.state ++ " "
        ++ p.postal_code)),
     ("phone", .s p.telephone_number),
     ("npi", .s p.number),
     ("network_status", .s "unknown"),
     ("estimated_cost", .n 0)]

/-- The hospitals list node_find_hospitals stores in the state when the
directory lookup succeeded with the given records. -/
def node_find_hospitals_entries (results : List NpiResult) : List PyDict :=
  results.filterMap npi_hospital_entry

/-! ### node_check_network (graph.py lines 322-366) -/

/-- The network-status capability: free text keyed by hospital name, plan
name and zip code. -/
structure NetOracle where
  check : String → String → String → String

/-- Classification of the free-text network answer by substring presence. -/
def classify_network (result : String) : String :=
  if strContains (pyLower result) "in-network" then "in-network"
  else if strContains (pyLower result) "out-of-network" then "out-of-network"
  else "unknown"

/-- An entry of the network_results list. -/
structure NetEntry where
  name : String
  address : String
  phone : String
  status : String

/-- The body of the per-hospital loop of node_check_network: none models
the continue taken when hospital.get("name", "") is falsy. -/
def check_network_entry (plan_name : String) (is_default : Bool)
    (zip_code : String) (oracle : NetOracle) (hospital : PyDict) :
    Option NetEntry :=
  let name := dget hospital "name" (.s "")
  if pyTruthy name = false then none
  else
    let status :=
      if is_default then "accepts-medicare"
      else classify_network (oracle.check (pyValStr name) plan_name zip_code)
    some { name := pyValStr name,
           address := pyValStr (dget hospital "address" (.s "")),
           phone := pyValStr (dget hospital "phone" (.s "")),
           status := status }

/-- Model of node_check_network: at most the first 4 hospitals are
considered, entries without a truthy name are skipped. -/
def node_check_network (hospitals : List PyDict) (plan_details : PyDict)
    (zip_code : String) (oracle : NetOracle) : List NetEntry :=
  let plan_name := pyValStr (dget plan_details "plan_name" (.s ""))
  let is_default := pyTruthy (dget plan_details "is_default" (.b false))
  (hospitals.take 4).filterMap
    (check_network_entry plan_name is_default zip_code oracle)

/-! ### node_estimate_cost (graph.py lines 369-405)

The node computes a cost for every network entry (by invoking the
estimate_cost tool and parsing the line labelled Your estimated cost:),
then sorts with key estimated_cost or 9999. The cost computation is the
costOf parameter; the Python sort is a stable ascending sort by key, which
insertion sort realizes. -/

/-- An entry of the cost_results list. -/
structure CostEntry where
  hospital : String
  address : String
  phone : String
  network_status : String
  estimated_cost : ℚ
deriving DecidableEq

/-- The Python sort key: x["estimated_cost"] or 9999, where a 0 cost is
falsy. -/
def costKey (e : CostEntry) : ℚ :=
  if e.estimated_cost = 0 then 9999 else e.estimated_cost

/-- The order node_estimate_cost sorts by. -/
def costLe (a b : CostEntry) : Prop := costKey a ≤ costKey b

instance : DecidableRel costLe :=
  fun a b => inferInstanceAs (Decidable (costKey a ≤ costKey b))

instance : IsTotal CostEntry costLe :=
  ⟨fun a b => le_total (costKey a) (costKey b)⟩

instance : IsTrans CostEntry costLe :=
  ⟨fun _ _ _ => le_trans⟩

/-- The stable ascending sort of cost_results (Python list.sort with the
key above). -/
def sortHospitals (l : List CostEntry) : List CostEntry :=
  List.insertionSort costLe l

/-- Model of node_estimate_cost: build a cost entry per network entry,
then sort cheapest first with zero treated as 9999. -/
def node_estimate_cost (network_results : List NetEntry)
    (costOf : NetEntry → ℚ) : List CostEntry :=
  sortHospitals (network_results.map (fun h =>
    { hospital := h.name, address := h.address, phone := h.phone,
      network_status := h.status, estimated_cost := costOf h }))

/-! ### estimate_cost (tools.py lines 218-344)

The deterministic cost model. The tool formats these values into a text
block; node_estimate_cost recovers the patient cost from the line labelled
Your estimated cost:. The numeric content is embedded here. -/

/-- The CMS benchmark table, in the insertion order of the Python dict
literal (the duplicated colonoscopy key collapses to its first position
with the same value). -/
def base_costs : List (String × ℚ) :=
  [("mri", 1500), ("ct scan", 800), ("x-ray", 200), ("colonoscopy", 2500),
   ("ultrasound", 400), ("blood test", 150), ("lab", 150),
   ("surgery", 15000), ("emergency", 3000), ("physical", 250),
   ("wellness visit", 250), ("specialist", 350), ("primary care", 200),
   ("mental health", 200), ("mammogram", 300), ("ecg", 300),
   ("echocardiogram", 1200), ("endoscopy", 1800), ("biopsy", 1000),
   ("infusion", 2000), ("physical therapy", 200)]

/-- First substring match in the benchmark table wins; 1000 if nothing
matches. -/
def base_cost_lookup (procedure_lower : String) : ℚ :=
  match base_costs.find? (fun kv => strContains procedure_lower kv.1) with
  | some kv => kv.2
  | none => 1000

/-- The severity multiplier dictionary. -/
def severity_multipliers : List (String × ℚ) :=
  [("mild", 7/10), ("moderate", 1), ("severe", 16/10), ("critical", 5/2)]

/-- Model of severity_multipliers.get(severity, 1.0). -/
def severity_multiplier (severity : String) : ℚ :=
  match severity_multipliers.find? (fun kv => kv.1 == severity) with
  | some kv => kv.2
  | none => 1

/-- The numeric fields of the estimate_cost tool output. -/
structure CostEstimate where
  base_cost : ℚ
  adjusted_cost : ℚ
  patient_cost : ℚ
  alternative_cost : ℚ
  alternative_note : String

/-- Model of the estimate_cost tool (tools.py lines 218-344). -/
def estimate_cost (procedure insurance_plan network_status severity : String)
    (deductible_met : Bool) : CostEstimate :=
  let procedure_lower := pyLower procedure
  let base_cost := base_cost_lookup procedure_lower
  let adjusted_cost := base_cost * severity_multiplier severity
  let plan_lower := pyLower insurance_plan
  let patient_cost :=
    if strContains plan_lower "medicare" &&
        !(strContains plan_lower "advantage") then
      if network_status = "in-network" then
        if deductible_met then adjusted_cost * (20/100)
        else if adjusted_cost ≤ 240 then adjusted_cost
        else 240 + (adjusted_cost - 240) * (20/100)
      else adjusted_cost * (35/100)
    else
      if network_status = "in-network" then
        if deductible_met then adjusted_cost * (20/100)
        else (if adjusted_cost < 500 then 40 else 0) + adjusted_cost * (25/100)
      else adjusted_cost * (50/100)
  let alternative_cost := patient_cost * (65/100)
  let alternative_note :=
    if strContains procedure_lower "emergency" then
      "Urgent care center (for non-life-threatening conditions)"
    else if ["mri", "ct", "x-ray", "ultrasound"].any
        (fun x => strContains procedure_lower x) then
      "Freestanding imaging center (same equipment, lower facility fee)"
    else if strContains procedure_lower "surgery" then
      "Ambulatory Surgery Center (outpatient, same procedure)"
    else "Outpatient facility or community health center"
  { base_cost := base_cost, adjusted_cost := adjusted_cost,
    patient_cost := patient_cost, alternative_cost := alternative_cost,
    alternative_note := alternative_note }

/-- The plan classifier of the cost-sharing branch: the plan name contains
medicare but not advantage (both case-insensitively). -/
def isMedicarePlan (insurance_plan : String) : Bool :=
  strContains (pyLower insurance_plan) "medicare" &&
    !(strContains (pyLower insurance_plan) "advantage")

/-- Stated from the claim: the severity factor table (mild 0.7, moderate
1.0, severe 1.6, critical 2.5, anything else 1.0). -/
def claim_severity_factor (severity : String) : ℚ :=
  if severity = "mild" then 7/10
  else if severity = "moderate" then 1
  else if severity = "severe" then 16/10
  else if severity = "critical" then 5/2
  else 1

/-! ### pyRound: the Python round builtin

Python round() on a float returns the nearest integer, resolving ties to
the even integer. -/

/-- Model of the Python round builtin on rationals. -/
def pyRound (q : ℚ) : ℤ :=
  if q - ⌊q⌋ < 1/2 then ⌊q⌋
  else if 1/2 < q - ⌊q⌋ then ⌊q⌋ + 1
  else if ⌊q⌋ % 2 = 0 then ⌊q⌋ else ⌊q⌋ + 1

/-! ### The critique loop (critique.py)

The answer record. In the Python code the answer is a dictionary created
by node_generate_answer; the fields below are the keys the critique loop
reads or writes. -/

/-- The answer record threaded through the critique loop. -/
structure Answer where
  headline : String
  explanation : String
  spoken_summary : String
  next_step : String
  alternative_description : String
  in_network_cost : ℚ
  out_of_network_cost : ℚ
  alternative_cost : ℚ
  confidence : ℚ
  hospitals : List CostEntry
  plan_details : PyDict
  alternatives : String
  used_defaults : Bool

/-- Reattachment of the structured fields by node_generate_answer
(graph.py lines 489-492): the hospitals, plan, alternatives and
default-flag always come from the pipeline state, whatever the oracle
answered. -/
def node_generate_answer_attach (base : Answer) (hospitals : List CostEntry)
    (plan_details : PyDict) (alternatives : String) (is_default : Bool) :
    Answer :=
  { base with
    hospitals := hospitals
    plan_details := plan_details
    alternatives := alternatives
    used_defaults := is_default }

/-- Outcome of one scoring-oracle call, after JSON parsing: either the
parsed dictionary (each dimension optional, as scores.get supplies the
0.7 default) or any exception along the way. -/
inductive ScoreLLMResult where
  | ok (completeness accuracy clarity safety : Option ℚ)
       (weakest instr : Option String)
  | fail (msg : String)

/-- The dictionary score_answer returns. -/
structure ScoreResult where
  completeness : ℤ
  accuracy : ℤ
  clarity : ℤ
  safety : ℤ
  composite : ℤ
  needs_rewrite : Bool
  weakest_dimension : String
  rewrite_instructions : String

/-- MAX_ITERATIONS of critique.py. -/
def MAX_ITERATIONS : ℕ := 3

/-- SCORE_THRESHOLD of critique.py. -/
def SCORE_THRESHOLD : ℤ := 80

/-- Model of score_answer (critique.py lines 62-172) as a function of the
scoring-oracle outcome: the parsed 0.0-1.0 dimensions are rescaled by 100
and rounded, the composite is the rounded mean, and any failure yields the
fixed 70-everywhere record with a forced rewrite. -/
def score_answer (r : ScoreLLMResult) : ScoreResult :=
  match r with
  | .ok c a cl s w instr =>
    let completeness := pyRound (c.getD (7/10) * 100)
    let accuracy := pyRound (a.getD (7/10) * 100)
    let clarity := pyRound (cl.getD (7/10) * 100)
    let safety := pyRound (s.getD (7/10) * 100)
    let composite := pyRound
      (((completeness : ℚ) + (accuracy : ℚ) + (clarity : ℚ) + (safety : ℚ)) / 4)
    { completeness := completeness
      accuracy := accuracy
      clarity := clarity
      safety := safety
      composite := composite
      needs_rewrite := decide (composite < SCORE_THRESHOLD)
      weakest_dimension := w.getD "clarity"
      rewrite_instructions := instr.getD "" }
  | .fail msg =>
    { completeness := 70
      accuracy := 70
      clarity := 70
      safety := 70
      composite := 70
      needs_rewrite := true
      weakest_dimension := "unknown"
      rewrite_instructions :=
        "Scoring failed: " ++ msg ++ ". Rewrite for clarity and completeness." }

/-- The JSON fields a successful rewrite call returns (critique.py lines
229-233). -/
structure RewriteFields where
  headline : String
  explanation : String
  spoken_summary : String
  next_step : String
  alternative_description : String
  in_network_cost : ℚ
  out_of_network_cost : ℚ
  alternative_cost : ℚ
  confidence : ℚ

/-- Model of rewrite_answer (critique.py lines 175-255) as a function of
the rewrite-oracle outcome: on success the structured fields are copied
from the previous answer onto the rewritten one; on any failure the
previous answer is returned unchanged. -/
def rewrite_answer (answer : Answer) (result : Option RewriteFields) :
    Answer :=
  match result with
  | some r =>
    { headline := r.headline
      explanation := r.explanation
      spoken_summary := r.spoken_summary
      next_step := r.next_step
      alternative_description := r.alternative_description
      in_network_cost := r.in_network_cost
      out_of_network_cost := r.out_of_network_cost
      alternative_cost := r.alternative_cost
      confidence := r.confidence
      hospitals := answer.hospitals
      plan_details := answer.plan_details
      alternatives := answer.alternatives
      used_defaults := answer.used_defaults }
  | none => answer

/-- One ScoreRecord of the score history. -/
structure ScoreRecord where
  iteration : ℕ
  completeness : ℤ
  accuracy : ℤ
  clarity : ℤ
  safety : ℤ
  composite : ℤ
deriving DecidableEq

/-- The oracle outcomes the critique loop can observe, per iteration and
candidate. -/
structure CritiqueOracle where
  score : ℕ → Answer → ScoreLLMResult
  rewrite : ℕ → Answer → ScoreResult → Option RewriteFields

/-- The loop variables of run_critique_loop, plus the two call counters
tracked for the resource claim. -/
structure LoopState where
  score_history : List ScoreRecord
  current : Answer
  best : Answer
  best_score : ℤ
  score_calls : ℕ
  rewrite_calls : ℕ

/-- The scoring, recording and best-so-far part of one loop iteration
(critique.py lines 285-308). -/
def critique_score_update (oracle : CritiqueOracle) (iteration : ℕ)
    (st : LoopState) : LoopState :=
  let scores := score_answer (oracle.score iteration st.current)
  { score_history := st.score_history ++
      [{ iteration := iteration
         completeness := scores.completeness
         accuracy := scores.accuracy
         clarity := scores.clarity
         safety := scores.safety
         composite := scores.composite }]
    current := st.current
    best := if st.best_score < scores.composite then st.current else st.best
    best_score := if st.best_score < scores.composite then scores.composite
      else st.best_score
    score_calls := st.score_calls + 1
    rewrite_calls := st.rewrite_calls }

/-- One iteration of the for loop (critique.py lines 280-324); the boolean
marks that a break already happened, making later iterations no-ops. -/
def critique_iter (oracle : CritiqueOracle) (iteration : ℕ) :
    LoopState × Bool → LoopState × Bool
  | (st, true) => (st, true)
  | (st, false) =>
    let scores := score_answer (oracle.score iteration st.current)
    let st1 := critique_score_update oracle iteration st
    if scores.needs_rewrite = false then (st1, true)
    else if iteration = MAX_ITERATIONS then (st1, true)
    else ({ st1 with
            current := rewrite_answer st.current
              (oracle.rewrite iteration st.current scores)
            rewrite_calls := st1.rewrite_calls + 1 }, false)

/-- The loop variables before the first iteration. -/
def critique_init (answer : Answer) : LoopState :=
  { score_history := []
    current := answer
    best := answer
    best_score := 0
    score_calls := 0
    rewrite_calls := 0 }

/-- The loop state after the (at most) three iterations of
range(1, MAX_ITERATIONS + 1). -/
def critique_state (oracle : CritiqueOracle) (answer : Answer) :
    LoopState × Bool :=
  critique_iter oracle 3 (critique_iter oracle 2
    (critique_iter oracle 1 (critique_init answer, false)))

/-- What run_critique_loop returns: the best answer with the score history,
final score and iteration count attached. -/
structure CritiqueResult where
  best : Answer
  score_history : List ScoreRecord
  final_score : ℤ
  iterations : ℕ

/-- Model of run_critique_loop (critique.py lines 258-332). -/
def run_critique_loop (oracle : CritiqueOracle) (answer : Answer) :
    CritiqueResult :=
  let st := (critique_state oracle answer).1
  { best := st.best
    score_history := st.score_history
    final_score := st.best_score
    iterations := st.score_history.length }

/-! ### run_agent (graph.py lines 568-618) -/

/-- Outcome of agent.invoke at the outermost boundary: the final state
value under final_answer, or an escaped exception message. -/
inductive PipelineOutcome where
  | ok (final_answer : Option PyDict)
  | err (e : String)

/-- Model of run_agent: the try/except around the whole pipeline. -/
def run_agent (outcome : PipelineOutcome) : PyDict :=
  match outcome with
  | .ok (some a) => a
  | .ok none => []
  | .err e =>
    [("error", .s e),
     ("spoken_summary", .s "I encountered an error. Please try again."),
     ("hospitals", .list []),
     ("confidence", .n 0),
     ("used_defaults", .b false)]

/-! ### Concrete fixtures used by witnesses and counterexamples -/

/-- A blank answer record. -/
def answer_blank : Answer :=
  { headline := ""
    explanation := ""
    spoken_summary := ""
    next_step := ""
    alternative_description := ""
    in_network_cost := 0
    out_of_network_cost := 0
    alternative_cost := 0
    confidence := 0
    hospitals := []
    plan_details := []
    alternatives := ""
    used_defaults := false }

/-- A scoring oracle answering 0.9 on every dimension. -/
def oracle_good : CritiqueOracle :=
  { score := fun _ _ =>
      .ok (some (9/10)) (some (9/10)) (some (9/10)) (some (9/10)) none none
    rewrite := fun _ _ _ => none }

/-- A scoring oracle failing on the first call and answering 0.9 on every
dimension afterwards, with a failing rewrite oracle. -/
def oracle_mixed : CritiqueOracle :=
  { score := fun i _ =>
      if i = 1 then .fail "transport error"
      else .ok (some (9/10)) (some (9/10)) (some (9/10)) (some (9/10))
        none none
    rewrite := fun _ _ _ => none }

/-- A scoring oracle whose completeness value 2.0 lies outside the nominal
0.0-1.0 scale. -/
def oracle_overflow : CritiqueOracle :=
  { score := fun _ _ => .ok (some 2) (some 1) (some 1) (some 1) none none
    rewrite := fun _ _ _ => none }

/-- A cost entry with estimated cost 0. -/
def providerZero : CostEntry :=
  ⟨"Zero Cost Hospital", "", "", "unknown", 0⟩

/-- A cost entry with estimated cost 10000. -/
def providerLarge : CostEntry :=
  ⟨"Large Cost Hospital", "", "", "out-of-network", 10000⟩

/-- A cost entry with estimated cost 300. -/
def provider300 : CostEntry := ⟨"Hospital B", "", "", "in-network", 300⟩

/-- A cost entry with estimated cost 150. -/
def provider150 : CostEntry := ⟨"Hospital C", "", "", "in-network", 150⟩

/-- A directory record with a nonempty organization name. -/
def c1_npi : NpiResult :=
  ⟨"General Hospital", "1 Main St", "Brooklyn", "NY", "11201", "5551234",
   "1234567890"⟩

/-- The dictionary node_find_hospitals builds for c1_npi. -/
def c1_entry : PyDict :=
  [("hospital", .s "General Hospital"),
   ("address", .s "1 Main St, Brooklyn, NY 11201"),
   ("phone", .s "5551234"),
   ("npi", .s "1234567890"),
   ("network_status", .s "unknown"),
   ("estimated_cost", .n 0)]

/-- A trivial network oracle. -/
def c1_net_oracle : NetOracle := ⟨fun _ _ _ => ""⟩

/-! ### Helper lemmas -/

/-- pyRound is the identity on integers. -/
theorem pyRound_intCast (n : ℤ) : pyRound (n : ℚ) = n := by
  unfold pyRound
  rw [Int.floor_intCast]
  norm_num

/-- pyRound of a nonnegative rational is nonnegative. -/
theorem pyRound_nonneg {q : ℚ} (h : 0 ≤ q) : 0 ≤ pyRound q := by
  have h0 : (0:ℤ) ≤ ⌊q⌋ := Int.floor_nonneg.mpr h
  unfold pyRound
  split_ifs <;> omega

/-- pyRound respects an integer upper bound. -/
theorem pyRound_le {q : ℚ} {n : ℤ} (h : q ≤ (n:ℚ)) : pyRound q ≤ n := by
  have hfl : ⌊q⌋ ≤ n := by
    have h2 := Int.floor_le_floor h
    simpa using h2
  have hf := Int.floor_le q
  unfold pyRound
  split_ifs with h1 h2 h3
  · exact hfl
  · have hq : ((⌊q⌋:ℚ)) < (n:ℚ) := by linarith
    have hq2 : ⌊q⌋ < n := by exact_mod_cast hq
    omega
  · exact hfl
  · push_neg at h1
    have hq : ((⌊q⌋:ℚ)) < (n:ℚ) := by linarith
    have hq2 : ⌊q⌋ < n := by exact_mod_cast hq
    omega

/-- A needed rewrite always means the composite is below the threshold,
on the success path by definition and on the failure path because the
neutral composite is 70. -/
theorem score_answer_needs (r : ScoreLLMResult)
    (h : (score_answer r).needs_rewrite = true) :
    (score_answer r).composite < 80 := by
  cases r with
  | ok c a cl s w instr =>
    simp only [score_answer, SCORE_THRESHOLD, decide_eq_true_eq] at h ⊢
    exact h
  | fail m => simp [score_answer]

/-- The severity multiplier table agrees with the factor stated in the
spec, including the default for unknown severities. -/
theorem severity_multiplier_eq (sev : String) :
    severity_multiplier sev = claim_severity_factor sev := by
  by_cases h1 : sev = "mild"
  · subst h1; rfl
  by_cases h2 : sev = "moderate"
  · subst h2; rfl
  by_cases h3 : sev = "severe"
  · subst h3; rfl
  by_cases h4 : sev = "critical"
  · subst h4; rfl
  unfold severity_multiplier severity_multipliers claim_severity_factor
  rw [List.find?_cons_of_neg, List.find?_cons_of_neg, List.find?_cons_of_neg,
    List.find?_cons_of_neg]
  · simp [h1, h2, h3, h4]
  · simp only [beq_iff_eq]
    exact fun h => h4 h.symm
  · simp only [beq_iff_eq]
    exact fun h => h3 h.symm
  · simp only [beq_iff_eq]
    exact fun h => h2 h.symm
  · simp only [beq_iff_eq]
    exact fun h => h1 h.symm

/-- Every dictionary node_find_hospitals builds lacks the name key, so the
get defaults to the empty string. -/
theorem npi_entry_no_name (p : NpiResult) (d : PyDict)
    (h : npi_hospital_entry p = some d) : dget d "name" (.s "") = .s "" := by
  simp only [npi_hospital_entry] at h
  split at h
  · exact absurd h (by simp)
  · cases h
    rfl

/-- The history written by the scoring part of one iteration. -/
theorem csu_hist (o : CritiqueOracle) (i : ℕ) (st : LoopState) :
    (critique_score_update o i st).score_history =
      st.score_history ++
        [⟨i, (score_answer (o.score i st.current)).completeness,
          (score_answer (o.score i st.current)).accuracy,
          (score_answer (o.score i st.current)).clarity,
          (score_answer (o.score i st.current)).safety,
          (score_answer (o.score i st.current)).composite⟩] := rfl

/-- One iteration appends at most one record. -/
theorem critique_iter_len (o : CritiqueOracle) (i : ℕ) (p : LoopState × Bool) :
    (critique_iter o i p).1.score_history.length ≤
      p.1.score_history.length + 1 := by
  rcases p with ⟨st, b⟩
  cases b with
  | true => simp [critique_iter]
  | false =>
    simp only [critique_iter]
    split_ifs <;> simp [critique_score_update]

/-- One iteration makes at most one scoring call. -/
theorem critique_iter_calls (o : CritiqueOracle) (i : ℕ)
    (p : LoopState × Bool) :
    (critique_iter o i p).1.score_calls ≤ p.1.score_calls + 1 := by
  rcases p with ⟨st, b⟩
  cases b with
  | true => simp [critique_iter]
  | false =>
    simp only [critique_iter]
    split_ifs <;> simp [critique_score_update]

/-- One iteration makes at most one rewrite call. -/
theorem critique_iter_rw (o : CritiqueOracle) (i : ℕ) (p : LoopState × Bool) :
    (critique_iter o i p).1.rewrite_calls ≤ p.1.rewrite_calls + 1 := by
  rcases p with ⟨st, b⟩
  cases b with
  | true => simp [critique_iter]
  | false =>
    simp only [critique_iter]
    split_ifs <;> simp [critique_score_update]

/-- The last iteration never makes a rewrite call. -/
theorem critique_iter_rw_max (o : CritiqueOracle) (p : LoopState × Bool) :
    (critique_iter o MAX_ITERATIONS p).1.rewrite_calls =
      p.1.rewrite_calls := by
  rcases p with ⟨st, b⟩
  cases b with
  | true => rfl
  | false =>
    simp only [critique_iter]
    split_ifs <;> rfl

/-- The invariant behind the early stop: every recorded composite except
possibly the last is below the threshold, and while the loop is still
running every recorded composite is below the threshold. -/
theorem critique_iter_hist_lt (o : CritiqueOracle) (i : ℕ)
    (p : LoopState × Bool)
    (h1 : ∀ r ∈ p.1.score_history.dropLast, r.composite < 80)
    (h2 : p.2 = false → ∀ r ∈ p.1.score_history, r.composite < 80) :
    (∀ r ∈ (critique_iter o i p).1.score_history.dropLast,
      r.composite < 80) ∧
    ((critique_iter o i p).2 = false →
      ∀ r ∈ (critique_iter o i p).1.score_history, r.composite < 80) := by
  rcases p with ⟨st, b⟩
  cases b with
  | true => exact ⟨h1, h2⟩
  | false =>
    have hall := h2 rfl
    simp only [critique_iter]
    split_ifs with hnr hmax
    · refine ⟨?_, by simp⟩
      intro r hr
      rw [csu_hist, List.dropLast_concat] at hr
      exact hall r hr
    · refine ⟨?_, by simp⟩
      intro r hr
      rw [csu_hist, List.dropLast_concat] at hr
      exact hall r hr
    · have hrec : (score_answer (o.score i st.current)).composite < 80 := by
        apply score_answer_needs
        revert hnr
        cases (score_answer (o.score i st.current)).needs_rewrite <;> simp
      constructor
      · intro r hr
        dsimp only at hr
        rw [csu_hist, List.dropLast_concat] at hr
        exact hall r hr
      · intro _ r hr
        dsimp only at hr
        rw [csu_hist] at hr
        rcases List.mem_append.mp hr with hr | hr
        · exact hall r hr
        · have := List.mem_singleton.mp hr
          subst this
          exact hrec

/-- The invariant behind the best-so-far tracking: every recorded
composite is bounded by the running best score. -/
theorem critique_iter_best (o : CritiqueOracle) (i : ℕ)
    (p : LoopState × Bool)
    (h : ∀ r ∈ p.1.score_history, r.composite ≤ p.1.best_score) :
    ∀ r ∈ (critique_iter o i p).1.score_history,
      r.composite ≤ (critique_iter o i p).1.best_score := by
  rcases p with ⟨st, b⟩
  dsimp only at h
  cases b with
  | true => exact h
  | false =>
    have key : ∀ r ∈ (critique_score_update o i st).score_history,
        r.composite ≤ (critique_score_update o i st).best_score := by
      intro r hr
      rw [csu_hist] at hr
      rcases List.mem_append.mp hr with hr | hr
      · have hb := h r hr
        simp only [critique_score_update]
        split_ifs with hc
        · omega
        · exact hb
      · have hrr := List.mem_singleton.mp hr
        subst hrr
        dsimp only [critique_score_update]
        split_ifs with hc
        · exact le_refl _
        · omega
    simp only [critique_iter]
    split_ifs <;> exact key

/-! ### The claims -/

/-- C1: node_find_hospitals stores each provider under the keys hospital,
address, phone and npi with no name key, so node_check_network reads the
empty default for every entry and skips it: the network_results list is
empty for every plan, zip code and network oracle, the estimate-cost node
therefore produces an empty hospital list, and the final answer built over
that list carries an empty hospital list. -/
theorem c1_name_key_mismatch :
    ∀ (results : List NpiResult) (plan_details : PyDict) (zip_code : String)
      (oracle : NetOracle) (costOf : NetEntry → ℚ) (base : Answer)
      (plan2 : PyDict) (alts : String) (d : Bool),
    (∀ h ∈ node_find_hospitals_entries results,
      dget h "name" (.s "") = .s "") ∧
    node_check_network (node_find_hospitals_entries results) plan_details
      zip_code oracle = [] ∧
    node_estimate_cost (node_check_network
      (node_find_hospitals_entries results) plan_details zip_code oracle)
      costOf = [] ∧
    (node_generate_answer_attach base [] plan2 alts d).hospitals = [] := by
  intro results plan_details zip_code oracle costOf base plan2 alts d
  have key : ∀ h ∈ node_find_hospitals_entries results,
      dget h "name" (.s "") = .s "" := by
    intro h hm
    rcases List.mem_filterMap.mp hm with ⟨p, _, hp⟩
    exact npi_entry_no_name p h hp
  have net : node_check_network (node_find_hospitals_entries results)
      plan_details zip_code oracle = [] := by
    simp only [node_check_network]
    rw [List.filterMap_eq_nil_iff]
    intro a ha
    have ha2 := List.mem_of_mem_take ha
    have hname := key a ha2
    simp only [check_network_entry, hname]
    simp [pyTruthy]
  refine ⟨key, net, ?_, rfl⟩
  rw [net]
  rfl

/-- C1 witness: a concrete directory record produces a dictionary whose
name lookup defaults to the empty string. -/
theorem c1_name_key_mismatch_witness :
    c1_entry ∈ node_find_hospitals_entries [c1_npi] ∧
    dget c1_entry "name" (.s "") = .s "" := by
  have he : node_find_hospitals_entries [c1_npi] = [c1_entry] := rfl
  have hm : c1_entry ∈ node_find_hospitals_entries [c1_npi] := by
    rw [he]
    exact List.mem_singleton_self _
  exact ⟨hm, (c1_name_key_mismatch [c1_npi] [] "" c1_net_oracle (fun _ => 0)
    answer_blank [] "" false).1 c1_entry hm⟩

/-- C2 counterexample: the sort key is the estimated cost with 0 replaced
by 9999, so a provider with cost 0 sorts before a provider with positive
cost 10000, contradicting the claim that zero-cost providers sort after
all providers with positive cost. -/
theorem c2_sort_counterexample :
    sortHospitals [providerZero, providerLarge] =
      [providerZero, providerLarge] ∧
    providerZero.estimated_cost = 0 ∧
    (0:ℚ) < providerLarge.estimated_cost := by
  refine ⟨by decide, rfl, by decide⟩

/-- C2 amended: the estimate-cost node sorts the provider list stably and
ascending by the key (estimated cost, with a zero or absent cost replaced
by 9999): the result is a permutation of the input, it is sorted for that
key, and providers with costs 0, 300 and 150 sort to 150, 300 and then the
zero-cost provider. A zero-cost provider therefore sorts after every
provider with positive cost below 9999 but before one whose cost exceeds
9999. -/
theorem c2_sort_amended :
    ∀ l : List CostEntry,
    List.Perm (sortHospitals l) l ∧
    List.Sorted costLe (sortHospitals l) ∧
    sortHospitals [providerZero, provider300, provider150] =
      [provider150, provider300, providerZero] := by
  intro l
  exact ⟨List.perm_insertionSort costLe l,
    List.sorted_insertionSort costLe l, by decide⟩

/-- C3: the estimate_cost tool computes the patient cost exactly as the
spec describes: base cost by first case-insensitive substring match in the
benchmark table with 1000 as the unmatched default, multiplied by the
severity factor (mild 0.7, moderate 1.0, severe 1.6, critical 2.5, other
1.0), then cost-shared by branch: Original-Medicare-style plans in-network
with the deductible unmet pay the full adjusted cost up to the 240
deductible and 240 plus 20 percent of the remainder above it, such plans
pay 35 percent when not in-network, managed or commercial plans in-network
pay 20 percent with the deductible met and otherwise a 40 copay (only
below 500) plus 25 percent, such plans pay 50 percent out-of-network, and
the alternative estimate is 65 percent of the patient cost. -/
theorem c3_estimate_cost_model
    (procedure insurance_plan network_status severity : String)
    (deductible_met : Bool) (e : CostEstimate)
    (he : e = estimate_cost procedure insurance_plan network_status severity
      deductible_met) :
    e.base_cost = (match base_costs.find?
        (fun kv => strContains (pyLower procedure) kv.1) with
      | some kv => kv.2
      | none => 1000) ∧
    ((∀ kv ∈ base_costs, strContains (pyLower procedure) kv.1 = false) →
      e.base_cost = 1000) ∧
    severity_multiplier severity = claim_severity_factor severity ∧
    e.adjusted_cost = e.base_cost * claim_severity_factor severity ∧
    (isMedicarePlan insurance_plan = true →
      network_status = "in-network" → deductible_met = false →
      e.patient_cost = (if e.adjusted_cost ≤ 240 then e.adjusted_cost
        else 240 + (e.adjusted_cost - 240) * (20/100))) ∧
    (isMedicarePlan insurance_plan = true →
      ¬(network_status = "in-network") →
      e.patient_cost = e.adjusted_cost * (35/100)) ∧
    (isMedicarePlan insurance_plan = false →
      network_status = "in-network" → deductible_met = true →
      e.patient_cost = e.adjusted_cost * (20/100)) ∧
    (isMedicarePlan insurance_plan = false →
      network_status = "in-network" → deductible_met = false →
      e.patient_cost = (if e.adjusted_cost < 500 then 40 else 0) +
        e.adjusted_cost * (25/100)) ∧
    (isMedicarePlan insurance_plan = false →
      network_status = "out-of-network" →
      e.patient_cost = e.adjusted_cost * (50/100)) ∧
    e.alternative_cost = e.patient_cost * (65/100) := by
  subst he
  refine ⟨rfl, ?_, severity_multiplier_eq severity, ?_, ?_, ?_, ?_, ?_, ?_,
    rfl⟩
  · intro hnone
    have hfind : base_costs.find?
        (fun kv => strContains (pyLower procedure) kv.1) = none := by
      rw [List.find?_eq_none]
      intro kv hkv
      simp [hnone kv hkv]
    simp only [estimate_cost, base_cost_lookup, hfind]
  · rw [← severity_multiplier_eq severity]
    rfl
  · intro hmed hns hdm
    simp only [isMedicarePlan] at hmed
    simp only [estimate_cost, hmed, hns, hdm]
    simp
  · intro hmed hns
    simp only [isMedicarePlan] at hmed
    simp only [estimate_cost, hmed]
    simp [hns]
  · intro hmed hns hdm
    simp only [isMedicarePlan] at hmed
    simp only [estimate_cost, hmed, hns, hdm]
    simp
  · intro hmed hns hdm
    simp only [isMedicarePlan] at hmed
    simp only [estimate_cost, hmed, hns, hdm]
    simp
  · intro hmed hns
    simp only [isMedicarePlan] at hmed
    simp only [estimate_cost, hmed, hns]
    simp

/-- C3 witness: concrete inputs exercising the default base cost, the
Medicare in-network deductible branch, the Medicare non-network branch,
and the three managed-plan branches. -/
theorem c3_estimate_cost_model_witness :
    (estimate_cost "zzz" "Original Medicare (Part A/B)" "in-network" "odd"
      false).base_cost = 1000 ∧
    (estimate_cost "zzz" "Original Medicare (Part A/B)" "in-network" "odd"
        false).patient_cost =
      (if (estimate_cost "zzz" "Original Medicare (Part A/B)" "in-network"
          "odd" false).adjusted_cost ≤ 240 then
        (estimate_cost "zzz" "Original Medicare (Part A/B)" "in-network"
          "odd" false).adjusted_cost
      else 240 + ((estimate_cost "zzz" "Original Medicare (Part A/B)"
          "in-network" "odd" false).adjusted_cost - 240) * (20/100)) ∧
    (estimate_cost "x" "Original Medicare (Part A/B)" "unknown" "mild"
        false).patient_cost =
      (estimate_cost "x" "Original Medicare (Part A/B)" "unknown" "mild"
        false).adjusted_cost * (35/100) ∧
    (estimate_cost "mri" "Humana Gold Plus HMO" "in-network" "mild"
        true).patient_cost =
      (estimate_cost "mri" "Humana Gold Plus HMO" "in-network" "mild"
        true).adjusted_cost * (20/100) ∧
    (estimate_cost "mri" "Humana Gold Plus HMO" "in-network" "mild"
        false).patient_cost =
      (if (estimate_cost "mri" "Humana Gold Plus HMO" "in-network" "mild"
          false).adjusted_cost < 500 then 40 else 0) +
        (estimate_cost "mri" "Humana Gold Plus HMO" "in-network" "mild"
          false).adjusted_cost * (25/100) ∧
    (estimate_cost "mri" "Humana Gold Plus HMO" "out-of-network" "mild"
        false).patient_cost =
      (estimate_cost "mri" "Humana Gold Plus HMO" "out-of-network" "mild"
        false).adjusted_cost * (50/100) :=
  ⟨(c3_estimate_cost_model "zzz" "Original Medicare (Part A/B)" "in-network"
      "odd" false _ rfl).2.1 (by decide),
   (c3_estimate_cost_model "zzz" "Original Medicare (Part A/B)" "in-network"
      "odd" false _ rfl).2.2.2.2.1 (by decide) rfl rfl,
   (c3_estimate_cost_model "x" "Original Medicare (Part A/B)" "unknown"
      "mild" false _ rfl).2.2.2.2.2.1 (by decide) (by decide),
   (c3_estimate_cost_model "mri" "Humana Gold Plus HMO" "in-network" "mild"
      true _ rfl).2.2.2.2.2.2.1 (by decide) rfl rfl,
   (c3_estimate_cost_model "mri" "Humana Gold Plus HMO" "in-network" "mild"
      false _ rfl).2.2.2.2.2.2.2.1 (by decide) rfl rfl,
   (c3_estimate_cost_model "mri" "Humana Gold Plus HMO" "out-of-network"
      "mild" false _ rfl).2.2.2.2.2.2.2.2.1 (by decide) rfl⟩

/-- C4: whatever the oracle outcomes, the critique loop records at most 3
ScoreRecords, makes at most 3 scoring calls and at most 2 rewrite calls,
and every recorded composite except possibly the last is below 80, so the
loop stops at the first iteration whose composite reaches 80. -/
theorem c4_critique_bounds :
    ∀ (oracle : CritiqueOracle) (answer : Answer),
    (run_critique_loop oracle answer).score_history.length ≤ 3 ∧
    (critique_state oracle answer).1.score_calls ≤ 3 ∧
    (critique_state oracle answer).1.rewrite_calls ≤ 2 ∧
    (∀ r ∈ (run_critique_loop oracle answer).score_history.dropLast,
      r.composite < 80) := by
  intro o a
  have e3 : (3:ℕ) = MAX_ITERATIONS := rfl
  have hlen : (critique_state o a).1.score_history.length ≤ 3 := by
    have l1 := critique_iter_len o 1 (critique_init a, false)
    have l2 := critique_iter_len o 2 (critique_iter o 1 (critique_init a,
      false))
    have l3 := critique_iter_len o 3 (critique_iter o 2 (critique_iter o 1
      (critique_init a, false)))
    have hb : (critique_init a, false).1.score_history.length = 0 := rfl
    simp only [critique_state]
    omega
  have hcalls : (critique_state o a).1.score_calls ≤ 3 := by
    have l1 := critique_iter_calls o 1 (critique_init a, false)
    have l2 := critique_iter_calls o 2 (critique_iter o 1 (critique_init a,
      false))
    have l3 := critique_iter_calls o 3 (critique_iter o 2 (critique_iter o 1
      (critique_init a, false)))
    have hb : (critique_init a, false).1.score_calls = 0 := rfl
    simp only [critique_state]
    omega
  have hrw : (critique_state o a).1.rewrite_calls ≤ 2 := by
    have l1 := critique_iter_rw o 1 (critique_init a, false)
    have l2 := critique_iter_rw o 2 (critique_iter o 1 (critique_init a,
      false))
    have l3 := critique_iter_rw_max o (critique_iter o 2 (critique_iter o 1
      (critique_init a, false)))
    rw [← e3] at l3
    have hb : (critique_init a, false).1.rewrite_calls = 0 := rfl
    simp only [critique_state]
    omega
  have hdrop : ∀ r ∈ (critique_state o a).1.score_history.dropLast,
      r.composite < 80 := by
    have i0a : ∀ r ∈ (critique_init a, false).1.score_history.dropLast,
        r.composite < 80 := by
      intro r hr
      simp [critique_init] at hr
    have i0b : (critique_init a, false).2 = false →
        ∀ r ∈ (critique_init a, false).1.score_history,
        r.composite < 80 := by
      intro _ r hr
      simp [critique_init] at hr
    have i1 := critique_iter_hist_lt o 1 (critique_init a, false) i0a i0b
    have i2 := critique_iter_hist_lt o 2 (critique_iter o 1
      (critique_init a, false)) i1.1 i1.2
    have i3 := critique_iter_hist_lt o 3 (critique_iter o 2 (critique_iter
      o 1 (critique_init a, false))) i2.1 i2.2
    exact i3.1
  exact ⟨hlen, hcalls, hrw, hdrop⟩

set_option maxRecDepth 8000 in
/-- C4 witness: with a failing first scoring call and a successful second
one, the loop records two ScoreRecords and the non-final one scores below
the threshold. -/
theorem c4_critique_bounds_witness :
    (⟨1, 70, 70, 70, 70, 70⟩ : ScoreRecord) ∈
      (run_critique_loop oracle_mixed answer_blank).score_history.dropLast ∧
    (⟨1, 70, 70, 70, 70, 70⟩ : ScoreRecord).composite < 80 :=
  ⟨by with_unfolding_all decide,
   (c4_critique_bounds oracle_mixed answer_blank).2.2.2 _
     (by with_unfolding_all decide)⟩

set_option maxRecDepth 8000 in
/-- C5 counterexample: a scoring-oracle output with completeness 2.0 (the
oracle is only nominally on the 0.0-1.0 scale) produces a ScoreRecord with
completeness sub-score 200, outside 0..100. -/
theorem c5_scorerecord_counterexample :
    (run_critique_loop oracle_overflow answer_blank).score_history =
      [⟨1, 200, 100, 100, 100, 125⟩] ∧
    ¬((200:ℤ) ≤ 100) := by
  constructor
  · with_unfolding_all decide
  · decide

/-- The rescaled sub-score of a dimension value within the nominal scale
lies in 0..100. -/
theorem pyRound_scale_bounds {v : ℚ} (h0 : 0 ≤ v) (h1 : v ≤ 1) :
    0 ≤ pyRound (v * 100) ∧ pyRound (v * 100) ≤ 100 := by
  constructor
  · exact pyRound_nonneg (by positivity)
  · apply pyRound_le
    push_cast
    nlinarith

/-- C5 amended: every ScoreRecord has integer sub-scores and a composite
equal to the Python round of the mean of the four sub-scores, for every
oracle outcome including the failure fallback; the sub-scores are
guaranteed to lie in 0..100 only when the oracle values lie within the
nominal 0.0-1.0 scale (the code does not clamp them), in which case the
composite lies in 0..100 as well. -/
theorem c5_scorerecord_amended :
    (∀ r : ScoreLLMResult,
      (score_answer r).composite = pyRound
        ((((score_answer r).completeness : ℚ) +
          ((score_answer r).accuracy : ℚ) +
          ((score_answer r).clarity : ℚ) +
          ((score_answer r).safety : ℚ)) / 4)) ∧
    (∀ msg : String,
      (score_answer (.fail msg)).completeness = 70 ∧
      (score_answer (.fail msg)).accuracy = 70 ∧
      (score_answer (.fail msg)).clarity = 70 ∧
      (score_answer (.fail msg)).safety = 70 ∧
      (score_answer (.fail msg)).composite = 70 ∧
      (score_answer (.fail msg)).needs_rewrite = true) ∧
    (∀ (c a cl s : Option ℚ) (w instr : Option String),
      0 ≤ c.getD (7/10) → c.getD (7/10) ≤ 1 →
      0 ≤ a.getD (7/10) → a.getD (7/10) ≤ 1 →
      0 ≤ cl.getD (7/10) → cl.getD (7/10) ≤ 1 →
      0 ≤ s.getD (7/10) → s.getD (7/10) ≤ 1 →
      (0 ≤ (score_answer (.ok c a cl s w instr)).completeness ∧
        (score_answer (.ok c a cl s w instr)).completeness ≤ 100) ∧
      (0 ≤ (score_answer (.ok c a cl s w instr)).accuracy ∧
        (score_answer (.ok c a cl s w instr)).accuracy ≤ 100) ∧
      (0 ≤ (score_answer (.ok c a cl s w instr)).clarity ∧
        (score_answer (.ok c a cl s w instr)).clarity ≤ 100) ∧
      (0 ≤ (score_answer (.ok c a cl s w instr)).safety ∧
        (score_answer (.ok c a cl s w instr)).safety ≤ 100) ∧
      (0 ≤ (score_answer (.ok c a cl s w instr)).composite ∧
        (score_answer (.ok c a cl s w instr)).composite ≤ 100)) := by
  refine ⟨?_, ?_, ?_⟩
  · intro r
    cases r with
    | ok c a cl s w instr => rfl
    | fail msg =>
      show (70:ℤ) = pyRound ((((70:ℤ):ℚ) + ((70:ℤ):ℚ) + ((70:ℤ):ℚ) +
        ((70:ℤ):ℚ)) / 4)
      have h4 : ((((70:ℤ):ℚ) + ((70:ℤ):ℚ) + ((70:ℤ):ℚ) + ((70:ℤ):ℚ)) / 4)
          = ((70:ℤ):ℚ) := by
        push_cast
        norm_num
      rw [h4, pyRound_intCast]
  · intro msg
    exact ⟨rfl, rfl, rfl, rfl, rfl, rfl⟩
  · intro c a cl s w instr hc0 hc1 ha0 ha1 hcl0 hcl1 hs0 hs1
    have bc := pyRound_scale_bounds hc0 hc1
    have ba := pyRound_scale_bounds ha0 ha1
    have bcl := pyRound_scale_bounds hcl0 hcl1
    have bs := pyRound_scale_bounds hs0 hs1
    refine ⟨bc, ba, bcl, bs, ?_, ?_⟩
    · apply pyRound_nonneg
      have c1 : (0:ℚ) ≤ (pyRound (c.getD (7/10) * 100) : ℚ) := by
        exact_mod_cast bc.1
      have c2 : (0:ℚ) ≤ (pyRound (a.getD (7/10) * 100) : ℚ) := by
        exact_mod_cast ba.1
      have c3 : (0:ℚ) ≤ (pyRound (cl.getD (7/10) * 100) : ℚ) := by
        exact_mod_cast bcl.1
      have c4 : (0:ℚ) ≤ (pyRound (s.getD (7/10) * 100) : ℚ) := by
        exact_mod_cast bs.1
      have hsum : (0:ℚ) ≤ (pyRound (c.getD (7/10) * 100) : ℚ) +
          (pyRound (a.getD (7/10) * 100) : ℚ) +
          (pyRound (cl.getD (7/10) * 100) : ℚ) +
          (pyRound (s.getD (7/10) * 100) : ℚ) := by linarith
      exact div_nonneg hsum (by norm_num)
    · apply pyRound_le
      have c1 : (pyRound (c.getD (7/10) * 100) : ℚ) ≤ 100 := by
        exact_mod_cast bc.2
      have c2 : (pyRound (a.getD (7/10) * 100) : ℚ) ≤ 100 := by
        exact_mod_cast ba.2
      have c3 : (pyRound (cl.getD (7/10) * 100) : ℚ) ≤ 100 := by
        exact_mod_cast bcl.2
      have c4 : (pyRound (s.getD (7/10) * 100) : ℚ) ≤ 100 := by
        exact_mod_cast bs.2
      push_cast
      linarith

/-- C5 amended witness: concrete in-range oracle values. -/
theorem c5_scorerecord_amended_witness :
    (0:ℚ) ≤ (9:ℚ)/10 ∧ (9:ℚ)/10 ≤ 1 ∧
    (0 ≤ (score_answer (.ok (some (9/10)) (some (9/10)) (some (9/10))
        (some (9/10)) none none)).completeness ∧
      (score_answer (.ok (some (9/10)) (some (9/10)) (some (9/10))
        (some (9/10)) none none)).completeness ≤ 100) := by
  have h0 : (0:ℚ) ≤ ((some ((9:ℚ)/10)).getD (7/10)) := by norm_num
  have h1 : ((some ((9:ℚ)/10)).getD (7/10)) ≤ 1 := by norm_num
  refine ⟨by norm_num, by norm_num, ?_⟩
  exact ((c5_scorerecord_amended).2.2 (some (9/10)) (some (9/10))
    (some (9/10)) (some (9/10)) none none h0 h1 h0 h1 h0 h1 h0 h1).1

/-- C6: the final score attached to the returned best answer bounds every
composite in the returned score history; the best candidate is replaced
exactly when an iteration composite strictly exceeds the best score so
far, and after the first iteration the best candidate is the initial
answer (whether or not the strict comparison fired, since the loop starts
with the initial answer as both current and best). -/
theorem c6_best_tracking :
    ∀ (oracle : CritiqueOracle) (answer : Answer),
    (∀ r ∈ (run_critique_loop oracle answer).score_history,
      r.composite ≤ (run_critique_loop oracle answer).final_score) ∧
    (critique_iter oracle 1 (critique_init answer, false)).1.best =
      answer ∧
    (∀ (i : ℕ) (st : LoopState),
      (critique_iter oracle i (st, false)).1.best =
        (if st.best_score <
            (score_answer (oracle.score i st.current)).composite
         then st.current else st.best)) := by
  intro o a
  refine ⟨?_, ?_, ?_⟩
  · have i0 : ∀ r ∈ (critique_init a, false).1.score_history,
        r.composite ≤ (critique_init a, false).1.best_score := by
      intro r hr
      simp [critique_init] at hr
    have i1 := critique_iter_best o 1 (critique_init a, false) i0
    have i2 := critique_iter_best o 2 (critique_iter o 1 (critique_init a,
      false)) i1
    have i3 := critique_iter_best o 3 (critique_iter o 2 (critique_iter o 1
      (critique_init a, false))) i2
    exact i3
  · simp only [critique_iter, critique_score_update, critique_init]
    split_ifs <;> rfl
  · intro i st
    simp only [critique_iter, critique_score_update]
    split_ifs <;> rfl

set_option maxRecDepth 8000 in
/-- C6 witness: a concrete run whose single recorded composite is bounded
by the attached final score. -/
theorem c6_best_tracking_witness :
    (⟨1, 90, 90, 90, 90, 90⟩ : ScoreRecord) ∈
      (run_critique_loop oracle_good answer_blank).score_history ∧
    (⟨1, 90, 90, 90, 90, 90⟩ : ScoreRecord).composite ≤
      (run_critique_loop oracle_good answer_blank).final_score :=
  ⟨by with_unfolding_all decide,
   (c6_best_tracking oracle_good answer_blank).1 _
     (by with_unfolding_all decide)⟩

/-- C7: check-inputs sets has_insurance exactly when the stripped input is
longer than 5 characters and its lowercase form is not a negation token,
with the quoted concrete inputs behaving as stated. -/
theorem c7_check_inputs :
    (∀ s : String, node_check_inputs s = true ↔
      ((pyStrip s).length > 5 ∧
        pyLower (pyStrip s) ∉ no_insurance_signals)) ∧
    node_check_inputs "no" = false ∧
    node_check_inputs "" = false ∧
    node_check_inputs "  " = false ∧
    node_check_inputs "n/a" = false ∧
    node_check_inputs "Humana Gold Plus HMO" = true := by
  refine ⟨fun s => ?_, by decide, by decide, by decide, by decide,
    by decide⟩
  simp [node_check_inputs, List.contains, decide_eq_true_eq]

/-- C8: a rewrite copies the structured fields (providers, plan details,
alternatives text and the default flag) unchanged from the pre-rewrite
candidate, and a failed rewrite call leaves the whole candidate
unmodified. -/
theorem c8_rewrite_frame :
    ∀ (answer : Answer) (r : Option RewriteFields),
    (rewrite_answer answer r).hospitals = answer.hospitals ∧
    (rewrite_answer answer r).plan_details = answer.plan_details ∧
    (rewrite_answer answer r).alternatives = answer.alternatives ∧
    (rewrite_answer answer r).used_defaults = answer.used_defaults ∧
    rewrite_answer answer none = answer := by
  intro answer r
  refine ⟨?_, ?_, ?_, ?_, rfl⟩ <;> cases r <;> rfl

/-- C9: when an exception escapes the pipeline, run_agent returns the
minimal error answer: the exception text, the apology summary, an empty
hospitals list, zero confidence and used_defaults false, instead of
propagating the exception. -/
theorem c9_run_agent_error :
    ∀ e : String,
    run_agent (.err e) =
      [("error", .s e),
       ("spoken_summary", .s "I encountered an error. Please try again."),
       ("hospitals", .list []),
       ("confidence", .n 0),
       ("used_defaults", .b false)] ∧
    dget (run_agent (.err e)) "confidence" (.n 1) = .n 0 ∧
    dget (run_agent (.err e)) "hospitals" (.s "") = .list [] ∧
    dget (run_agent (.err e)) "used_defaults" (.b true) = .b false := by
  intro e
  exact ⟨rfl, rfl, rfl, rfl⟩

/-- A successfully parsed amount is nonnegative. -/
theorem parseFloat?_nonneg (cs : List Char) (v : ℚ)
    (h : parseFloat? cs = some v) : 0 ≤ v := by
  unfold parseFloat? at h
  split_ifs at h
  cases h
  apply Rat.divInt_nonneg
  · positivity
  · positivity

/-- The per-line loop only returns 0 or a parsed amount. -/
theorem parse_dollar_lines_nonneg (label : List Char)
    (ls : List (List Char)) : 0 ≤ parse_dollar_lines label ls := by
  induction ls with
  | nil => simp [parse_dollar_lines]
  | cons line rest ih =>
    rw [parse_dollar_lines]
    split_ifs
    · cases hs : searchNum line with
      | none => exact ih
      | some g =>
        dsimp only
        cases hp : parseFloat? (g.filter (fun c => !(c == ','))) with
        | none => exact le_refl (0:ℚ)
        | some v => exact parseFloat?_nonneg _ v hp
    · exact ih

/-- If no line matches the label the loop returns 0. -/
theorem parse_dollar_lines_no_label (label : List Char)
    (ls : List (List Char))
    (h : ∀ line ∈ ls,
      charsHas (label.map Char.toLower) (line.map Char.toLower) = false) :
    parse_dollar_lines label ls = 0 := by
  induction ls with
  | nil => rfl
  | cons line rest ih =>
    rw [parse_dollar_lines]
    rw [h line (List.mem_cons_self line rest)]
    simp only [Bool.false_eq_true, if_false]
    exact ih fun l hl => h l (List.mem_cons_of_mem line hl)

/-- C10 counterexample: on a label-matching line the lone comma before the
amount is the leftmost match of the number pattern; stripping its commas
leaves nothing for float(), the resulting error is caught, and the
function returns 0.0 even though the line carries the decimal number
500. -/
theorem c10_extract_amount_counterexample :
    parse_dollar "Deductible: see notes, $500" "Deductible:" = 0 ∧
    ¬(parse_dollar "Deductible: see notes, $500" "Deductible:" = 500) := by
  constructor
  · decide
  · decide

/-- C10 amended: extractAmount matches the label case-insensitively per
line and extracts the leftmost occurrence of the pattern optional currency
symbol, then a nonempty run of digits or commas, then an optional decimal
part; the comma-stripped match is returned as a nonnegative value, except
that a match without digits (such as a stray comma earlier on the line)
makes the function return 0.0; a line matching the label but not the
pattern falls through to later lines, and 0.0 is returned when no line or
pattern matches; the function never raises. The two quoted examples hold:
1240.50 for the dollar amount and 0.0 on no match. -/
theorem c10_extract_amount_amended :
    parse_dollar "Deductible: $1,240.50" "Deductible:" = 1240.50 ∧
    parse_dollar "no match" "Deductible:" = 0 ∧
    (∀ text label : String, 0 ≤ parse_dollar text label) ∧
    (∀ text label : String,
      (∀ line ∈ splitLinesChars text.toList,
        charsHas (label.toList.map Char.toLower)
          (line.map Char.toLower) = false) →
      parse_dollar text label = 0) := by
  refine ⟨?_, by decide, ?_, ?_⟩
  · have h : parse_dollar "Deductible: $1,240.50" "Deductible:" =
        Rat.divInt 2481 2 := by decide
    rw [h]
    norm_num [Rat.divInt_eq_div]
  · intro text label
    exact parse_dollar_lines_nonneg label.toList (splitLinesChars
      text.toList)
  · intro text label h
    exact parse_dollar_lines_no_label label.toList
      (splitLinesChars text.toList) h

/-- C10 amended witness: a text with no matching label line returns 0. -/
theorem c10_extract_amount_amended_witness :
    (∀ line ∈ splitLinesChars ("Coinsurance: 20%").toList,
      charsHas (("Deductible:").toList.map Char.toLower)
        (line.map Char.toLower) = false) ∧
    parse_dollar "Coinsurance: 20%" "Deductible:" = 0 :=
  ⟨by decide,
   (c10_extract_amount_amended).2.2.2 "Coinsurance: 20%" "Deductible:"
     (by decide)⟩
